import Mathlib

/-!
Verification of the pypdb client library specification against a shallow
embedding of the source.  Python dicts are modelled as association lists
inside a small JSON value type; stateful code is modelled by explicit state
passing; functions that can raise return `Option` or `Except`.
-/

/-- JSON values, modelling the Python dict/list/str/number/bool/None data
that the pypdb client builds and consumes.  Object entries keep insertion
order, as Python dicts do. -/
inductive Json where
  | null : Json
  | bool (b : Bool) : Json
  | num (q : Rat) : Json
  | str (s : String) : Json
  | arr (elems : List Json) : Json
  | obj (entries : List (String × Json)) : Json

/-- Key lookup in an association list (first match wins), modelling Python
dict access on the dicts built by this library. -/
def lookupKey : List (String × Json) → String → Option Json
  | [], _ => none
  | (k, v) :: rest, key => if k = key then some v else lookupKey rest key

/-- Dict access `j[key]` (returns `none` when `j` is not an object or the
key is absent, where Python would raise KeyError / TypeError). -/
def Json.lookup : Json → String → Option Json
  | .obj entries, key => lookupKey entries key
  | _, _ => none

/-- Membership test `key in j`, as used by `fetch_data`. -/
def Json.hasKey (j : Json) (key : String) : Bool :=
  (j.lookup key).isSome

/-- The keys of a JSON object, in insertion order. -/
def Json.keys : Json → List String
  | .obj entries => entries.map Prod.fst
  | _ => []

/-! ## Rate-limited transport (`pypdb/util/http_requests.py`, `request_limited`) -/

/-- Warnings emitted by `request_limited` via `warnings.warn`, in order. -/
inductive TransportWarning where
  | requestTypeNotRecognized
  | tooManyRequests
  | serverError
  | tooManyFailures
deriving DecidableEq

/-- Observable outcome of one `request_limited` call: which response (by
attempt index) was returned, the sleep multipliers passed to `time.sleep`
(each sleep is `multiplier * sleep_time`), the number of HTTP requests
sent, and the warnings emitted. -/
structure TransportTrace where
  result : Option Nat
  sleeps : List Nat
  attempts : Nat
  warnings : List TransportWarning
deriving DecidableEq

/-- The retry loop of `request_limited`.  The Python loop runs
`while total_attempts <= num_attempts`, incrementing `total_attempts` once
per iteration; here the remaining iteration count
`num_attempts + 1 - total_attempts` is passed as `fuel` so that the
recursion is structural.  `statuses i` is the HTTP status code of the
response to the i-th request (0-indexed); on status 200 the loop returns
that response, on 429 it warns and sleeps `(1 + total_attempts) * sleep_time`
(recorded as the multiplier `1 + total_attempts`), on 5xx it warns and
retries without sleeping, and on any other status it retries silently.
When the loop exhausts, a final warning is emitted and `None` is returned. -/
def requestLoop (statuses : Nat → Nat) (total_attempts : Nat) : Nat → TransportTrace
  | 0 => ⟨none, [], 0, [.tooManyFailures]⟩
  | fuel + 1 =>
    let s := statuses total_attempts
    if s = 200 then ⟨some total_attempts, [], 1, []⟩
    else
      let rest := requestLoop statuses (total_attempts + 1) fuel
      if s = 429 then
        ⟨rest.result, (1 + total_attempts) :: rest.sleeps, rest.attempts + 1,
          .tooManyRequests :: rest.warnings⟩
      else if 500 ≤ s ∧ s < 600 then
        ⟨rest.result, rest.sleeps, rest.attempts + 1, .serverError :: rest.warnings⟩
      else
        ⟨rest.result, rest.sleeps, rest.attempts + 1, rest.warnings⟩

/-- `request_limited` (src/pypdb/util/http_requests.py lines 14-77): checks
the request type, then runs the bounded retry loop.  The network is
modelled by `statuses`, giving the status code of each successive
response. -/
def request_limited (rtype : String) (num_attempts : Nat) (statuses : Nat → Nat) :
    TransportTrace :=
  if rtype = "GET" ∨ rtype = "POST" then requestLoop statuses 0 (num_attempts + 1)
  else ⟨none, [], 0, [.requestTypeNotRecognized]⟩

/-! ## Sequence operators
(`pypdb/clients/search/operators/sequence_operators.py`) -/

/-- `SequenceType` enum; `value` below gives the Python enum value. -/
inductive SequenceType where
  | DNA
  | RNA
  | PROTEIN
deriving DecidableEq

/-- The Python enum value string of a `SequenceType`. -/
def SequenceType.value : SequenceType → String
  | .DNA => "pdb_dna_sequence"
  | .RNA => "pdb_rna_sequence"
  | .PROTEIN => "pdb_protein_sequence"

/-- `dna_letter_set` from `_autoresolve_sequence_type`. -/
def dna_letter_set : List Char := ['A', 'T', 'C', 'G']

/-- `rna_letter_set` from `_autoresolve_sequence_type`. -/
def rna_letter_set : List Char := ['A', 'U', 'C', 'G']

/-- `protein_letter_set` from `_autoresolve_sequence_type`
(the 23-letter extended amino-acid alphabet). -/
def protein_letter_set : List Char := "ABCDEFGHIKLMNPQRSTVWXYZ".data

/-- `protein_fingerprint_set` from `_autoresolve_sequence_type`
(letters appearing in protein codes but never in DNA/RNA codes). -/
def protein_fingerprint_set : List Char := "BDEFHIKLMNPQRSVWXYZ".data

/-- `SequenceOperator._autoresolve_sequence_type` (lines 37-54), as the
pure resolution function: Python computes `set(list(self.sequence))` and
tests subset/membership/intersection on it; subset and membership over the
de-duplicated set coincide with `all`/`contains`/`any` over the raw letter
list used here.  `none` models raising
`CannotAutoresolveSequenceTypeError`. -/
def autoresolve_sequence_type (sequence : String) : Option SequenceType :=
  let unique_letters := sequence.data
  if unique_letters.all (dna_letter_set.contains ·) && unique_letters.contains 'T' then
    some .DNA
  else if unique_letters.all (rna_letter_set.contains ·) && unique_letters.contains 'U' then
    some .RNA
  else if unique_letters.all (protein_letter_set.contains ·)
      && unique_letters.any (protein_fingerprint_set.contains ·) then
    some .PROTEIN
  else
    none

/-- The `SequenceOperator` dataclass, after `__post_init__` has run
(so `sequence_type` is always resolved). -/
structure SequenceOperator where
  sequence : String
  sequence_type : SequenceType
  evalue_cutoff : Rat := 100
  identity_cutoff : Rat := 95 / 100
deriving DecidableEq

/-- Construction of a `SequenceOperator`, including `__post_init__`
(lines 33-35): when `sequence_type` is omitted (`none`) it is resolved
from the sequence, and construction raises (`none`) when resolution
fails. -/
def SequenceOperator.create (sequence : String) (sequence_type : Option SequenceType)
    (evalue_cutoff : Rat := 100) (identity_cutoff : Rat := 95 / 100) :
    Option SequenceOperator :=
  match sequence_type with
  | some t => some ⟨sequence, t, evalue_cutoff, identity_cutoff⟩
  | none =>
    (autoresolve_sequence_type sequence).map
      fun t => ⟨sequence, t, evalue_cutoff, identity_cutoff⟩

/-- `SequenceOperator._to_dict` (lines 56-62). -/
def SequenceOperator.to_dict (op : SequenceOperator) : Json :=
  .obj [("evalue_cutoff", .num op.evalue_cutoff),
        ("identity_cutoff", .num op.identity_cutoff),
        ("target", .str op.sequence_type.value),
        ("value", .str op.sequence)]

/-! ## Text operators (`pypdb/clients/search/operators/text_operators.py`) -/

/-- `ComparisonType` enum (lines 90-96). -/
inductive ComparisonType where
  | GREATER
  | GREATER_OR_EQUAL
  | EQUAL
  | NOT_EQUAL
  | LESS_OR_EQUAL
  | LESS
deriving DecidableEq

/-- The Python enum value string of a `ComparisonType`. -/
def ComparisonType.value : ComparisonType → String
  | .GREATER => "greater"
  | .GREATER_OR_EQUAL => "greater_or_equal"
  | .EQUAL => "equals"
  | .NOT_EQUAL => "not_equal"
  | .LESS_OR_EQUAL => "less_or_equal"
  | .LESS => "less"

/-- `ComparisonOperator` dataclass (lines 103-121). -/
structure ComparisonOperator where
  «attribute» : String
  value : Json
  comparison_type : ComparisonType

/-- `ComparisonOperator._to_dict` (lines 123-132).  The Python code first
builds `param_dict` (either `operator/negation` for NOT_EQUAL, or just
`operator`), then inserts `attribute` and `value`; entry order follows
that insertion order. -/
def ComparisonOperator.to_dict (op : ComparisonOperator) : Json :=
  if op.comparison_type = ComparisonType.NOT_EQUAL then
    .obj [("operator", .str "equals"), ("negation", .bool true),
          ("attribute", .str op.«attribute»), ("value", op.value)]
  else
    .obj [("operator", .str op.comparison_type.value),
          ("attribute", .str op.«attribute»), ("value", op.value)]

/-- `RangeOperator` dataclass (lines 157-165). -/
structure RangeOperator where
  «attribute» : String
  from_value : Json
  to_value : Json
  include_lower : Bool := true
  include_upper : Bool := true
  negation : Bool := false

/-- `RangeOperator._to_dict` (lines 167-174).  Note that the serialized
dict contains only `operator`, `attribute`, `negation` and a
`value.from` / `value.to` sub-dict; the `include_lower` and
`include_upper` fields do not appear in the output. -/
def RangeOperator.to_dict (op : RangeOperator) : Json :=
  .obj [("operator", .str "range"),
        ("attribute", .str op.«attribute»),
        ("negation", .bool op.negation),
        ("value", .obj [("from", op.from_value), ("to", op.to_value)])]

/-- `DefaultOperator` dataclass (text_operators.py lines 13-20). -/
structure DefaultOperator where
  value : String
deriving DecidableEq

/-- `DefaultOperator._to_dict`. -/
def DefaultOperator.to_dict (op : DefaultOperator) : Json :=
  .obj [("value", .str op.value)]

/-- `ExactMatchOperator` dataclass (lines 23-35). -/
structure ExactMatchOperator where
  «attribute» : String
  value : Json

/-- `ExactMatchOperator._to_dict`. -/
def ExactMatchOperator.to_dict (op : ExactMatchOperator) : Json :=
  .obj [("attribute", .str op.«attribute»), ("operator", .str "exact_match"),
        ("value", op.value)]

/-- `InOperator` dataclass (lines 38-51). -/
structure InOperator where
  «attribute» : String
  values : List Json

/-- `InOperator._to_dict`. -/
def InOperator.to_dict (op : InOperator) : Json :=
  .obj [("attribute", .str op.«attribute»), ("operator", .str "in"),
        ("value", .arr op.values)]

/-- `ContainsWordsOperator` dataclass (lines 54-69). -/
structure ContainsWordsOperator where
  «attribute» : String
  value : String
deriving DecidableEq

/-- `ContainsWordsOperator._to_dict`. -/
def ContainsWordsOperator.to_dict (op : ContainsWordsOperator) : Json :=
  .obj [("attribute", .str op.«attribute»), ("operator", .str "contains_words"),
        ("value", .str op.value)]

/-- `ContainsPhraseOperator` dataclass (lines 72-87). -/
structure ContainsPhraseOperator where
  «attribute» : String
  value : String
deriving DecidableEq

/-- `ContainsPhraseOperator._to_dict`. -/
def ContainsPhraseOperator.to_dict (op : ContainsPhraseOperator) : Json :=
  .obj [("attribute", .str op.«attribute»), ("operator", .str "contains_phrase"),
        ("value", .str op.value)]

/-- `ExistsOperator` dataclass (lines 177-182). -/
structure ExistsOperator where
  «attribute» : String
deriving DecidableEq

/-- `ExistsOperator._to_dict`. -/
def ExistsOperator.to_dict (op : ExistsOperator) : Json :=
  .obj [("operator", .str "exists"), ("attribute", .str op.«attribute»)]

/-! ## Search client (`pypdb/clients/search/search_client.py`) -/

/-- `SearchService` enum (lines 26-32). -/
inductive SearchService where
  | TEXT
  | SEQUENCE
  | SEQMOTIF
  | STRUCTURE
  | CHEMICAL
deriving DecidableEq

/-- The Python enum value string of a `SearchService`. -/
def SearchService.value : SearchService → String
  | .TEXT => "text"
  | .SEQUENCE => "sequence"
  | .SEQMOTIF => "seqmotif"
  | .STRUCTURE => "structure"
  | .CHEMICAL => "chemical"

/-- `LogicalOperator` enum (lines 35-38). -/
inductive LogicalOperator where
  | AND
  | OR
deriving DecidableEq

/-- The Python enum value string of a `LogicalOperator`. -/
def LogicalOperator.value : LogicalOperator → String
  | .AND => "and"
  | .OR => "or"

/-- The `SearchOperator` union (lines 47-49):
`Union[TextSearchOperator, SequenceSearchOperator]`, where
`TextSearchOperator` is the union of the eight text operator classes. -/
inductive SearchOperator where
  | defaultOp (op : DefaultOperator)
  | exactMatch (op : ExactMatchOperator)
  | inOp (op : InOperator)
  | containsWords (op : ContainsWordsOperator)
  | containsPhrase (op : ContainsPhraseOperator)
  | comparison (op : ComparisonOperator)
  | range (op : RangeOperator)
  | existsOp (op : ExistsOperator)
  | sequence (op : SequenceOperator)

/-- Dynamic dispatch of `search_operator._to_dict()` over the union. -/
def SearchOperator.to_dict : SearchOperator → Json
  | .defaultOp op => op.to_dict
  | .exactMatch op => op.to_dict
  | .inOp op => op.to_dict
  | .containsWords op => op.to_dict
  | .containsPhrase op => op.to_dict
  | .comparison op => op.to_dict
  | .range op => op.to_dict
  | .existsOp op => op.to_dict
  | .sequence op => op.to_dict

/-- Membership of the runtime type of an operator in
`text_operators.TEXT_SEARCH_OPERATORS` (text_operators.py lines 193-196),
the list of the eight text operator classes. -/
def memTEXT_SEARCH_OPERATORS : SearchOperator → Bool
  | .sequence _ => false
  | _ => true

/-- Modelled from the spec: membership of the runtime type of an operator
in `sequence_operators.SEQUENCE_SEARCH_OPERATORS`.  The snapshot of
`sequence_operators.py` under src does not define this list (nor the
`SequenceSearchOperator` union that `search_client.py` imports); per the
spec, the sequence service is associated with exactly the
`SequenceOperator` class. -/
def memSEQUENCE_SEARCH_OPERATORS : SearchOperator → Bool
  | .sequence _ => true
  | _ => false

/-- Query trees: `QueryNode` (lines 52-65, a service plus one operator)
and `QueryGroup` (lines 96-123, an ordered list of children plus a
logical operator), merged into one inductive since Python represents the
tree with these two mutually-nested classes. -/
inductive Query where
  | node (search_service : SearchService) (search_operator : SearchOperator)
  | group (queries : List Query) (logical_operator : LogicalOperator)

mutual

/-- `QueryNode._to_dict` (lines 60-65) and `QueryGroup._to_dict`
(lines 118-123), recursively serializing the tree. -/
def Query.to_dict : Query → Json
  | .node search_service search_operator =>
    .obj [("type", .str "terminal"),
          ("service", .str search_service.value),
          ("parameters", search_operator.to_dict)]
  | .group queries logical_operator =>
    .obj [("type", .str "group"),
          ("logical_operator", .str logical_operator.value),
          ("nodes", .arr (queriesToDicts queries))]

/-- The list comprehension `[query._to_dict() for query in self.queries]`
inside `QueryGroup._to_dict`, serializing children in input order. -/
def queriesToDicts : List Query → List Json
  | [] => []
  | q :: rest => q.to_dict :: queriesToDicts rest

end

/-- Exceptions raised by query validation: `NotImplementedError`
(lines 75-77) and `InappropriateSearchOperatorException` (lines 91-94). -/
inductive ValidationError where
  | notImplementedError
  | inappropriateSearchOperatorException
deriving DecidableEq

mutual

/-- `QueryNode._validate` (lines 67-94) and `QueryGroup._validate`
(lines 125-131).  A node whose service is not TEXT or SEQUENCE raises
`NotImplementedError`; a TEXT (resp. SEQUENCE) node whose operator type
is outside the corresponding supported-operator list raises
`InappropriateSearchOperatorException`; a group validates its children in
order.  The trailing default-to-OK branch of the Python `if/elif/else`
chain is kept, although it is unreachable behind the first guard. -/
def Query.validate : Query → Except ValidationError Unit
  | .node search_service search_operator =>
    if ¬(search_service = SearchService.TEXT ∨ search_service = SearchService.SEQUENCE) then
      .error .notImplementedError
    else if search_service = SearchService.TEXT then
      if memTEXT_SEARCH_OPERATORS search_operator then .ok ()
      else .error .inappropriateSearchOperatorException
    else if search_service = SearchService.SEQUENCE then
      if memSEQUENCE_SEARCH_OPERATORS search_operator then .ok ()
      else .error .inappropriateSearchOperatorException
    else
      .ok ()
  | .group queries _ => validateQueries queries

/-- The loop `for query in self.queries: query._validate()` inside
`QueryGroup._validate`: the first raised exception propagates. -/
def validateQueries : List Query → Except ValidationError Unit
  | [] => .ok ()
  | q :: rest => do
    q.validate
    validateQueries rest

end

/-- `RequestOptions` dataclass (lines 142-156).  Pagination fields default
to `None`; sorting defaults to score descending. -/
structure RequestOptions where
  result_start_index : Option Int := none
  num_results : Option Int := none
  sort_by : Option String := some "score"
  desc : Option Bool := some true
deriving DecidableEq

/-- `RequestOptions._to_dict` (lines 158-174): a `pager` entry is emitted
only when both pagination fields are non-None, and a `sort` entry only
when both `sort_by` and `desc` are non-None; insertion order is pager
first, then sort. -/
def RequestOptions.to_dict (o : RequestOptions) : Json :=
  let pager_entries :=
    match o.result_start_index, o.num_results with
    | some s, some r => [("pager", Json.obj [("start", .num s), ("rows", .num r)])]
    | _, _ => []
  let sort_entries :=
    match o.sort_by, o.desc with
    | some sb, some d =>
      [("sort", Json.arr [Json.obj [("sort_by", .str sb),
        ("direction", .str (if d then "desc" else "asc"))]])]
    | _, _ => []
  Json.obj (pager_entries ++ sort_entries)

/-- `ScoredResult` dataclass (lines 176-179).  The fields hold whatever
JSON values the response supplied under `identifier` and `score`. -/
structure ScoredResult where
  entity_id : Json
  score : Json

/-- The three result shapes `perform_search_with_graph` can produce. -/
inductive SearchReturn where
  | rawJson (body : Json)
  | scored (results : List ScoredResult)
  | identifiers (results : List Json)

/-- The `for query_hit in response.json()["result_set"]` loop of
`perform_search_with_graph` with `return_with_scores=True`, collecting
`ScoredResult(identifier=query_hit["identifier"], score=query_hit["score"])`
for each hit in order (`none` models the KeyError on a hit missing one of
those keys). -/
def collectScoredResults : List Json → Option (List ScoredResult)
  | [] => some []
  | hit :: rest => do
    let ident ← hit.lookup "identifier"
    let score ← hit.lookup "score"
    let tail ← collectScoredResults rest
    pure (ScoredResult.mk ident score :: tail)

/-- The `for query_hit in response.json()["result_set"]` loop of
`perform_search_with_graph` without scores, collecting
`query_hit["identifier"]` for each hit in order (`none` models the
KeyError on a hit without that key). -/
def collectIdentifiers : List Json → Option (List Json)
  | [] => some []
  | hit :: rest => do
    let ident ← hit.lookup "identifier"
    let tail ← collectIdentifiers rest
    pure (ident :: tail)

/-- The response-processing tail of `perform_search_with_graph`
(lines 329-346), applied to the decoded JSON response body of a
successful (HTTP ok) request: if `return_raw_json_dict` the body is
returned unprocessed; otherwise the `result_set` list is walked in order,
collecting `ScoredResult(identifier, score)` when `return_with_scores`
and the bare `identifier` values otherwise.  `none` models the exceptions
Python would raise on a missing `result_set` key or missing
`identifier` / `score` keys. -/
def perform_search_with_graph_result (return_with_scores return_raw_json_dict : Bool)
    (body : Json) : Option SearchReturn :=
  if return_raw_json_dict then some (.rawJson body)
  else
    match body.lookup "result_set" with
    | some (.arr hits) =>
      if return_with_scores then
        (collectScoredResults hits).map SearchReturn.scored
      else
        (collectIdentifiers hits).map SearchReturn.identifiers
    | _ => none

/-! ## Data fetcher (`pypdb/clients/data/data_types.py`) -/

/-- `DataType` enum (lines 27-36). -/
inductive DataType where
  | ENTRY
  | POLYMER_ENTITY
  | BRANCHED_ENTITY
  | NONPOLYMER_ENTITY
  | POLYMER_ENTITY_INSTANCE
  | BRANCHED_ENTITY_INSTANCE
  | NONPOLYMER_ENTITY_INSTANCE
  | ASSEMBLY
  | CHEMICAL_COMPONENT
deriving DecidableEq

/-- The Python enum value string of a `DataType`. -/
def DataType.value : DataType → String
  | .ENTRY => "entries"
  | .POLYMER_ENTITY => "polymer_entities"
  | .BRANCHED_ENTITY => "branched_entities"
  | .NONPOLYMER_ENTITY => "nonpolymer_entities"
  | .POLYMER_ENTITY_INSTANCE => "polymer_entity_instances"
  | .BRANCHED_ENTITY_INSTANCE => "branched_entity_instances"
  | .NONPOLYMER_ENTITY_INSTANCE => "nonpolymer_entity_instances"
  | .ASSEMBLY => "assemblies"
  | .CHEMICAL_COMPONENT => "chem_comps"

/-- The `DataFetcher` dataclass (lines 38-49): ids (already normalized to
a list by `__post_init__`), the entity kind, and the mutable
`properties` / `response` state (`json_query` is omitted here; the claims
under verification do not touch `generate_json_query`, and `fetch_data`
is modelled as receiving the decoded GraphQL response directly). -/
structure DataFetcher where
  id : List String
  data_type : DataType
  properties : List (String × List String) := []
  response : Json := .obj []

/-- `DataFetcher.fetch_data` (lines 143-162), with the network modelled by
the decoded response `resp` that `search_graphql` returned.  When the
response contains an `errors` key, the error messages are printed and the
method returns early WITHOUT assigning `self.response`; otherwise the
response is stored (the id-count comparison afterwards only prints a
warning and changes no state). -/
def DataFetcher.fetch_data (f : DataFetcher) (resp : Json) : DataFetcher :=
  if resp.hasKey "errors" then f
  else { f with response := resp }

/-- The per-entry flattening loop of `return_data_as_df_dict`
(lines 173-190): for each property of an entry, a list value is replaced
by its first element (`none` models the IndexError on an empty list);
a string value is stored under the property key; a dict value is exploded
into `key.subprop` entries; any other value type makes Python raise
(AttributeError on `.items()`), modelled as `none`. -/
def flattenEntry : List (String × Json) → Option (List (String × Json))
  | [] => some []
  | (key, values) :: rest => do
    let v ← match values with
      | .arr [] => none
      | .arr (x :: _) => some x
      | other => some other
    let fields ← match v with
      | .str s => some [(key, Json.str s)]
      | .obj kvs => some (kvs.map fun kv => (key ++ "." ++ kv.1, kv.2))
      | _ => none
    let restFlat ← flattenEntry rest
    some (fields ++ restFlat)

/-- The `for i, entry in enumerate(data)` loop of
`return_data_as_df_dict`: the i-th record is flattened and keyed by
`self.id[i]` (`none` models the IndexError when the response holds more
records than ids; fewer records than ids simply leaves ids unused). -/
def flattenData : List String → List Json → Option (List (String × Json))
  | _, [] => some []
  | [], _ :: _ => none
  | i :: ids, entry :: rest => do
    let kvs ← match entry with
      | .obj kvs => some kvs
      | _ => none
    let flat ← flattenEntry kvs
    let restFlat ← flattenData ids rest
    some ((i, Json.obj flat) :: restFlat)

/-- `DataFetcher.return_data_as_df_dict` (lines 164-192): returns `None`
when `self.response` is still the empty dict (`if not self.response`),
otherwise flattens `self.response["data"][self.data_type.value]` into a
per-id dict. -/
def DataFetcher.return_data_as_df_dict (f : DataFetcher) : Option Json :=
  match f.response with
  | .obj [] => none
  | resp => do
    let dataField ← resp.lookup "data"
    let perType ← dataField.lookup f.data_type.value
    let entries ← match perType with
      | .arr l => some l
      | _ => none
    let flat ← flattenData f.id entries
    some (.obj flat)

/-! ## FASTA client (`pypdb/clients/fasta/fasta_client.py`) -/

/-- Python `str.split(sep)` for a single-character separator: splits on
every occurrence, keeping empty pieces (so the result always has one more
piece than there are separators). -/
def pySplitChar (sep : Char) : List Char → List (List Char)
  | [] => [[]]
  | c :: rest =>
    let r := pySplitChar sep rest
    if c = sep then [] :: r
    else
      match r with
      | h :: t => (c :: h) :: t
      | [] => [[c]]

/-- The characters removed by Python `str.strip()` on ASCII text. -/
def pyIsSpace (c : Char) : Bool :=
  c = ' ' || c = '\t' || c = '\n' || c = '\x0d' || c = '\x0b' || c = '\x0c'

/-- Python `str.strip()`: removes leading and trailing whitespace. -/
def pyStrip (cs : List Char) : List Char :=
  ((cs.dropWhile pyIsSpace).reverse.dropWhile pyIsSpace).reverse

/-- Whether `pat` occurs at the head of `cs` (literal match). -/
def listTakeIs : List Char → List Char → Bool
  | [], _ => true
  | _ :: _, [] => false
  | p :: ps, c :: cs => p = c && listTakeIs ps cs

/-- The scanning loop of `re.sub("Chains? ", "", s)`, with the remaining
input length passed as structural fuel (each step consumes at least one
character, so `cs.length` fuel suffices). -/
def removeChainWordAux : Nat → List Char → List Char
  | _, [] => []
  | 0, cs => cs
  | fuel + 1, c :: rest =>
    if listTakeIs "Chains ".data (c :: rest) then removeChainWordAux fuel (rest.drop 6)
    else if listTakeIs "Chain ".data (c :: rest) then removeChainWordAux fuel (rest.drop 5)
    else c :: removeChainWordAux fuel rest

/-- `re.sub("Chains? ", "", s)`: deletes every occurrence of the literal
`Chains ` or `Chain ` (the regex is the word Chain, an optional s, then a
space), scanning left to right. -/
def removeChainWord (cs : List Char) : List Char :=
  removeChainWordAux cs.length cs

/-- Python `str.split(sep)` lifted to `String`. -/
def pySplit (sep : Char) (s : String) : List String :=
  (pySplitChar sep s.data).map String.mk

/-- Python `str.strip()` lifted to `String`. -/
def pyStripStr (s : String) : String :=
  String.mk (pyStrip s.data)

/-- Python `"".join(parts)`: concatenation with no separator. -/
def pyJoin (parts : List String) : String :=
  String.mk (parts.map String.data).flatten

/-- The `FastaSequence` dataclass (fasta_client.py lines 16-27). -/
structure FastaSequence where
  entity_id : String
  chains : List String
  sequence : String
  fasta_header : String
deriving DecidableEq

/-- The per-chunk body of the `for fasta_sequence_chunk in ...` loop of
`_parse_fasta_text_to_list`: the first line is the header, the remaining
lines concatenated with no separator form the sequence, the
pipe-delimited header field 0 is the entity id, and field 1 with every
`Chain ` / `Chains ` word removed and then split on commas gives the
chains.  `none` models the IndexError Python raises when a header has no
second pipe-delimited field. -/
def parseFastaChunk (chunk : String) : Option FastaSequence :=
  match pySplit '\n' chunk with
  | [] => none
  | fasta_header :: rest =>
    let fasta_sequence := pyJoin rest
    match pySplit '|' fasta_header with
    | seg0 :: seg1 :: _ =>
      some ⟨seg0, pySplit ',' (String.mk (removeChainWord seg1.data)),
            fasta_sequence, fasta_header⟩
    | _ => none

/-- The chunk loop of `_parse_fasta_text_to_list`: one record per chunk,
in order; the first failing chunk aborts with the exception (`none`). -/
def parseFastaChunks : List String → Option (List FastaSequence)
  | [] => some []
  | chunk :: rest => do
    let record ← parseFastaChunk chunk
    let tail ← parseFastaChunks rest
    pure (record :: tail)

/-- `_parse_fasta_text_to_list` (fasta_client.py lines 30-51): strip the
raw text, split on the record marker `>`, drop the text before the first
marker, and parse each remaining chunk into a `FastaSequence`. -/
def parse_fasta_text_to_list (raw_fasta_text : String) : Option (List FastaSequence) :=
  parseFastaChunks ((pySplit '>' (pyStripStr raw_fasta_text)).drop 1)

/-! ## Theorems -/

/-- The warnings produced by the attempts with the given indices, none of
which returned 200: a rate-limit warning per 429, a server-error warning
per 5xx, nothing for other statuses. -/
def attemptWarnings (st : Nat → Nat) (ks : List Nat) : List TransportWarning :=
  ks.filterMap fun k =>
    if st k = 429 then some .tooManyRequests
    else if 500 ≤ st k ∧ st k < 600 then some .serverError
    else none

/-- The sleep multipliers produced by the attempts with the given indices:
one sleep of `(1 + k) * sleep_time` for each attempt `k` that saw a 429. -/
def attemptSleeps (st : Nat → Nat) (ks : List Nat) : List Nat :=
  (ks.filter fun k => st k == 429).map fun k => 1 + k

lemma attemptSleeps_nil (st : Nat → Nat) : attemptSleeps st [] = [] := rfl

lemma attemptSleeps_cons_429 (st : Nat → Nat) (k : Nat) (ks : List Nat)
    (h : st k = 429) :
    attemptSleeps st (k :: ks) = (1 + k) :: attemptSleeps st ks := by
  simp [attemptSleeps, List.filter_cons, h]

lemma attemptSleeps_cons_other (st : Nat → Nat) (k : Nat) (ks : List Nat)
    (h : st k ≠ 429) :
    attemptSleeps st (k :: ks) = attemptSleeps st ks := by
  simp [attemptSleeps, List.filter_cons, h]

lemma attemptWarnings_nil (st : Nat → Nat) : attemptWarnings st [] = [] := rfl

lemma attemptWarnings_cons_429 (st : Nat → Nat) (k : Nat) (ks : List Nat)
    (h : st k = 429) :
    attemptWarnings st (k :: ks) = .tooManyRequests :: attemptWarnings st ks := by
  simp [attemptWarnings, List.filterMap_cons, h]

lemma attemptWarnings_cons_5xx (st : Nat → Nat) (k : Nat) (ks : List Nat)
    (h429 : st k ≠ 429) (h5 : 500 ≤ st k ∧ st k < 600) :
    attemptWarnings st (k :: ks) = .serverError :: attemptWarnings st ks := by
  simp [attemptWarnings, List.filterMap_cons, h429, h5]

lemma attemptWarnings_cons_other (st : Nat → Nat) (k : Nat) (ks : List Nat)
    (h429 : st k ≠ 429) (h5 : ¬(500 ≤ st k ∧ st k < 600)) :
    attemptWarnings st (k :: ks) = attemptWarnings st ks := by
  simp [attemptWarnings, List.filterMap_cons, h429, h5]

/-- Characterization of the retry loop when the attempt at offset `j`
from the start index `i` is the first to return 200 within the fuel
budget. -/
lemma requestLoop_success (st : Nat → Nat) :
    ∀ (j i fuel : Nat), j < fuel →
      (∀ k, k < j → st (i + k) ≠ 200) → st (i + j) = 200 →
      requestLoop st i fuel =
        ⟨some (i + j), attemptSleeps st (List.range' i j), j + 1,
         attemptWarnings st (List.range' i j)⟩ := by
  intro j
  induction j with
  | zero =>
    intro i fuel hfuel _ h200
    match fuel, hfuel with
    | fuel + 1, _ =>
      simp only [requestLoop]
      rw [if_pos (by simpa using h200)]
      simp [attemptSleeps, attemptWarnings]
  | succ j ih =>
    intro i fuel hfuel hne h200
    match fuel, hfuel with
    | fuel + 1, hfuel =>
      have h0 : st i ≠ 200 := by simpa using hne 0 (Nat.succ_pos j)
      have hshift : ∀ k, k < j → st (i + 1 + k) ≠ 200 := by
        intro k hk
        have heq : i + 1 + k = i + (k + 1) := by omega
        rw [heq]
        exact hne (k + 1) (by omega)
      have hlast : st (i + 1 + j) = 200 := by
        have heq : i + 1 + j = i + (j + 1) := by omega
        rw [heq]; exact h200
      have hrest := ih (i + 1) fuel (by omega) hshift hlast
      simp only [requestLoop]
      rw [if_neg h0, hrest, List.range'_succ]
      by_cases h429 : st i = 429
      · rw [if_pos h429, attemptSleeps_cons_429 st i _ h429,
            attemptWarnings_cons_429 st i _ h429]
        have heq : i + 1 + j = i + (j + 1) := by omega
        simp [heq]
      · rw [if_neg h429, attemptSleeps_cons_other st i _ h429]
        by_cases h5 : 500 ≤ st i ∧ st i < 600
        · rw [if_pos h5, attemptWarnings_cons_5xx st i _ h429 h5]
          have heq : i + 1 + j = i + (j + 1) := by omega
          simp [heq]
        · rw [if_neg h5, attemptWarnings_cons_other st i _ h429 h5]
          have heq : i + 1 + j = i + (j + 1) := by omega
          simp [heq]

/-- Characterization of the retry loop when no attempt within the fuel
budget returns 200: the loop exhausts its bound, emits the final warning
once, and returns no response. -/
lemma requestLoop_failure (st : Nat → Nat) :
    ∀ (fuel i : Nat), (∀ k, k < fuel → st (i + k) ≠ 200) →
      requestLoop st i fuel =
        ⟨none, attemptSleeps st (List.range' i fuel), fuel,
         attemptWarnings st (List.range' i fuel) ++ [.tooManyFailures]⟩ := by
  intro fuel
  induction fuel with
  | zero =>
    intro i _
    simp [requestLoop, attemptSleeps, attemptWarnings]
  | succ fuel ih =>
    intro i hne
    have h0 : st i ≠ 200 := by simpa using hne 0 (Nat.succ_pos fuel)
    have hshift : ∀ k, k < fuel → st (i + 1 + k) ≠ 200 := by
      intro k hk
      have heq : i + 1 + k = i + (k + 1) := by omega
      rw [heq]
      exact hne (k + 1) (by omega)
    have hrest := ih (i + 1) hshift
    simp only [requestLoop]
    rw [if_neg h0, hrest, List.range'_succ]
    by_cases h429 : st i = 429
    · rw [if_pos h429, attemptSleeps_cons_429 st i _ h429,
          attemptWarnings_cons_429 st i _ h429]
      simp
    · rw [if_neg h429, attemptSleeps_cons_other st i _ h429]
      by_cases h5 : 500 ≤ st i ∧ st i < 600
      · rw [if_pos h5, attemptWarnings_cons_5xx st i _ h429 h5]
        simp
      · rw [if_neg h5, attemptWarnings_cons_other st i _ h429 h5]

/-- The status sequence 429, 503, then 200 forever. -/
def statuses_429_503_200 : Nat → Nat :=
  fun i => if i = 0 then 429 else if i = 1 then 503 else 200

/-- The status sequence that always answers 429. -/
def statuses_always_429 : Nat → Nat := fun _ => 429

/-- C1: `request_limited` implements the specified retry state machine:
an HTTP 200 response is returned immediately; a 429 response at attempt
`k` produces one sleep of `(1 + k) * sleep_time` before the retry; a 5xx
response produces a retry with no sleep; once attempts exceed the bound
(`num_attempts`, default 3, so at most `num_attempts + 1` total attempts)
a final too-many-failures warning is emitted and `None` is returned
rather than raising.  For the statuses [429, 503, 200] there is exactly
one sleep, three total attempts, and the 200 response is returned; for
all-429 statuses there is one sleep per attempt and `None` is returned. -/
theorem C1_request_limited_retry_state_machine :
    (∀ (num_attempts : Nat) (st : Nat → Nat), st 0 = 200 →
      request_limited "GET" num_attempts st = ⟨some 0, [], 1, []⟩)
  ∧ (∀ (num_attempts j : Nat) (st : Nat → Nat), j ≤ num_attempts →
      (∀ k, k < j → st k ≠ 200) → st j = 200 →
      request_limited "GET" num_attempts st =
        ⟨some j, attemptSleeps st (List.range j), j + 1,
         attemptWarnings st (List.range j)⟩)
  ∧ (∀ (num_attempts : Nat) (st : Nat → Nat), (∀ k, k ≤ num_attempts → st k ≠ 200) →
      request_limited "GET" num_attempts st =
        ⟨none, attemptSleeps st (List.range (num_attempts + 1)), num_attempts + 1,
         attemptWarnings st (List.range (num_attempts + 1)) ++ [.tooManyFailures]⟩)
  ∧ request_limited "GET" 3 statuses_429_503_200 =
      ⟨some 2, [1], 3, [.tooManyRequests, .serverError]⟩
  ∧ request_limited "GET" 3 statuses_always_429 =
      ⟨none, [1, 2, 3, 4], 4,
       [.tooManyRequests, .tooManyRequests, .tooManyRequests, .tooManyRequests,
        .tooManyFailures]⟩
  ∧ (request_limited "GET" 3 statuses_always_429).sleeps.length =
      (request_limited "GET" 3 statuses_always_429).attempts := by
  refine ⟨?_, ?_, ?_, by decide, by decide, by decide⟩
  · intro n st h200
    have h := requestLoop_success st 0 0 (n + 1) (by omega) (by omega)
      (by simpa using h200)
    simpa [request_limited, attemptSleeps, attemptWarnings] using h
  · intro n j st hj hne h200
    have h := requestLoop_success st j 0 (n + 1) (by omega)
      (by intro k hk; simpa using hne k hk) (by simpa using h200)
    rw [request_limited, if_pos (Or.inl rfl), h, List.range_eq_range']
    simp
  · intro n st hne
    have h := requestLoop_failure st (n + 1) 0
      (by intro k hk; simpa using hne k (by omega))
    rw [request_limited, if_pos (Or.inl rfl), h, List.range_eq_range']

/-- Witness for C1: the success-after-failures characterization applied
to the concrete status sequence 429, 503, 200 with the default bound. -/
theorem C1_request_limited_retry_state_machine_witness :
    request_limited "GET" 3 statuses_429_503_200 =
      ⟨some 2, attemptSleeps statuses_429_503_200 (List.range 2), 3,
       attemptWarnings statuses_429_503_200 (List.range 2)⟩ :=
  C1_request_limited_retry_state_machine.2.1 3 2 statuses_429_503_200
    (by decide) (by decide) (by decide)

/-- The DNA condition of the spec: every distinct letter of the sequence
lies in the DNA alphabet and T occurs. -/
def isDNASequence (s : String) : Prop :=
  (∀ c ∈ s.data, c ∈ dna_letter_set) ∧ 'T' ∈ s.data

/-- The RNA condition of the spec: every distinct letter of the sequence
lies in the RNA alphabet and U occurs. -/
def isRNASequence (s : String) : Prop :=
  (∀ c ∈ s.data, c ∈ rna_letter_set) ∧ 'U' ∈ s.data

/-- The protein condition of the spec: every distinct letter lies in the
23-letter extended amino-acid alphabet and at least one letter comes from
the protein fingerprint set. -/
def isProteinSequence (s : String) : Prop :=
  (∀ c ∈ s.data, c ∈ protein_letter_set) ∧ ∃ c ∈ s.data, c ∈ protein_fingerprint_set

instance (s : String) : Decidable (isDNASequence s) := by
  unfold isDNASequence; infer_instance

instance (s : String) : Decidable (isRNASequence s) := by
  unfold isRNASequence; infer_instance

instance (s : String) : Decidable (isProteinSequence s) := by
  unfold isProteinSequence; infer_instance

lemma dna_cond_iff (s : String) :
    (s.data.all (dna_letter_set.contains ·) && s.data.contains 'T') = true ↔
      isDNASequence s := by
  simp [isDNASequence, List.all_eq_true, List.elem_iff]

lemma rna_cond_iff (s : String) :
    (s.data.all (rna_letter_set.contains ·) && s.data.contains 'U') = true ↔
      isRNASequence s := by
  simp [isRNASequence, List.all_eq_true, List.elem_iff]

lemma protein_cond_iff (s : String) :
    (s.data.all (protein_letter_set.contains ·)
      && s.data.any (protein_fingerprint_set.contains ·)) = true ↔
      isProteinSequence s := by
  simp [isProteinSequence, List.all_eq_true, List.any_eq_true, List.elem_iff]

/-- C2: constructing a `SequenceOperator` with the sequence type omitted
resolves the type from the distinct letters of the sequence: DNA when the
letters are a subset of the DNA alphabet containing T, else RNA when a
subset of the RNA alphabet containing U, else PROTEIN when a subset of
the 23-letter extended amino-acid alphabet meeting the protein
fingerprint set, and otherwise construction raises.  In particular
ATGGGGTAA resolves to DNA, AUGGGGCCCUAA to RNA, MAETREGGQSGAAS to
PROTEIN, and AAAAAAAA fails to resolve. -/
theorem C2_sequence_type_autoresolution :
    (∀ (s : String) (e i : Rat),
      ((SequenceOperator.create s none e i).map SequenceOperator.sequence_type
          = some SequenceType.DNA ↔ isDNASequence s)
      ∧ ((SequenceOperator.create s none e i).map SequenceOperator.sequence_type
          = some SequenceType.RNA ↔ ¬isDNASequence s ∧ isRNASequence s)
      ∧ ((SequenceOperator.create s none e i).map SequenceOperator.sequence_type
          = some SequenceType.PROTEIN ↔
            ¬isDNASequence s ∧ ¬isRNASequence s ∧ isProteinSequence s)
      ∧ (SequenceOperator.create s none e i = none ↔
            ¬isDNASequence s ∧ ¬isRNASequence s ∧ ¬isProteinSequence s))
  ∧ autoresolve_sequence_type "ATGGGGTAA" = some SequenceType.DNA
  ∧ autoresolve_sequence_type "AUGGGGCCCUAA" = some SequenceType.RNA
  ∧ autoresolve_sequence_type "MAETREGGQSGAAS" = some SequenceType.PROTEIN
  ∧ autoresolve_sequence_type "AAAAAAAA" = none
  ∧ SequenceOperator.create "AAAAAAAA" none 100 (95 / 100) = none := by
  refine ⟨?_, by decide, by decide, by decide, by decide, by decide⟩
  intro s e i
  simp only [SequenceOperator.create, autoresolve_sequence_type]
  split_ifs with h1 h2 h3
  · rw [dna_cond_iff] at h1
    simp [h1]
  · rw [dna_cond_iff] at h1
    rw [rna_cond_iff] at h2
    simp [h1, h2]
  · rw [dna_cond_iff] at h1
    rw [rna_cond_iff] at h2
    rw [protein_cond_iff] at h3
    simp [h1, h2, h3]
  · rw [dna_cond_iff] at h1
    rw [rna_cond_iff] at h2
    rw [protein_cond_iff] at h3
    simp [h1, h2, h3]

/-- Witness for C2: the DNA characterization applied to ATGGGGTAA. -/
theorem C2_sequence_type_autoresolution_witness :
    (SequenceOperator.create "ATGGGGTAA" none 100 (95 / 100)).map
      SequenceOperator.sequence_type = some SequenceType.DNA :=
  ((C2_sequence_type_autoresolution.1 "ATGGGGTAA" 100 (95 / 100)).1).mpr (by decide)

/-- C3 counterexample: a query node against the STRUCTURE service (one of
the services without a defined supported-operator list) does NOT validate
without error; `_validate` raises `NotImplementedError`, so the claimed
permissive default never applies to these services. -/
theorem C3_counterexample_structure_service_rejected :
    Query.validate (.node SearchService.STRUCTURE (.existsOp ⟨"rcsb_id"⟩)) =
      .error ValidationError.notImplementedError
  ∧ Query.validate (.node SearchService.STRUCTURE (.existsOp ⟨"rcsb_id"⟩)) ≠
      .ok () := by
  refine ⟨rfl, ?_⟩
  intro h
  exact Except.noConfusion h

/-- C3 amended: `_validate` raises `NotImplementedError` for every node
whose service is STRUCTURE, SEQMOTIF or CHEMICAL (the guard fires before
the permissive default branch can be reached); for the TEXT and SEQUENCE
services it accepts exactly the operators in the corresponding
supported-operator list and otherwise raises
`InappropriateSearchOperatorException`; no other ground for rejection
exists. -/
theorem C3_validate_rejects_unimplemented_services :
    (∀ (svc : SearchService) (op : SearchOperator),
      (svc = SearchService.SEQMOTIF ∨ svc = SearchService.STRUCTURE ∨
       svc = SearchService.CHEMICAL) →
      Query.validate (.node svc op) = .error ValidationError.notImplementedError)
  ∧ (∀ op : SearchOperator,
      Query.validate (.node SearchService.TEXT op) = .ok () ↔
        memTEXT_SEARCH_OPERATORS op)
  ∧ (∀ op : SearchOperator, ¬memTEXT_SEARCH_OPERATORS op →
      Query.validate (.node SearchService.TEXT op) =
        .error ValidationError.inappropriateSearchOperatorException)
  ∧ (∀ op : SearchOperator,
      Query.validate (.node SearchService.SEQUENCE op) = .ok () ↔
        memSEQUENCE_SEARCH_OPERATORS op)
  ∧ (∀ op : SearchOperator, ¬memSEQUENCE_SEARCH_OPERATORS op →
      Query.validate (.node SearchService.SEQUENCE op) =
        .error ValidationError.inappropriateSearchOperatorException) := by
  refine ⟨?_, ?_, ?_, ?_, ?_⟩
  · intro svc op h
    rcases h with h | h | h <;> subst h <;> simp [Query.validate]
  · intro op
    by_cases hm : memTEXT_SEARCH_OPERATORS op <;> simp [Query.validate, hm]
  · intro op hm
    simp [Query.validate, hm]
  · intro op
    by_cases hm : memSEQUENCE_SEARCH_OPERATORS op <;> simp [Query.validate, hm]
  · intro op hm
    simp [Query.validate, hm]

/-- Witness for C3: the guard applied to a SEQMOTIF node. -/
theorem C3_validate_rejects_unimplemented_services_witness :
    Query.validate (.node SearchService.SEQMOTIF (.defaultOp ⟨"TTT"⟩)) =
      .error ValidationError.notImplementedError :=
  C3_validate_rejects_unimplemented_services.1 SearchService.SEQMOTIF
    (.defaultOp ⟨"TTT"⟩) (Or.inl rfl)

lemma queriesToDicts_eq_map (qs : List Query) :
    queriesToDicts qs = qs.map Query.to_dict := by
  induction qs with
  | nil => rfl
  | cons q rest ih => rw [queriesToDicts, List.map_cons, ih]

/-- The OR group of the spec example: two exact-match terminal nodes. -/
def example_or_group : Query :=
  .group
    [.node SearchService.TEXT
      (.exactMatch ⟨"rcsb_entity_source_organism.taxonomy_lineage.name",
        .str "Mus musculus"⟩),
     .node SearchService.TEXT
      (.exactMatch ⟨"rcsb_entity_source_organism.taxonomy_lineage.name",
        .str "Homo sapiens"⟩)]
    LogicalOperator.OR

/-- The AND group of the spec example: the OR group followed by a
comparison terminal node. -/
def example_and_group : Query :=
  .group
    [example_or_group,
     .node SearchService.TEXT
      (.comparison ⟨"rcsb_accession_info.initial_release_date",
        .str "2019-01-01T00:00:00Z", ComparisonType.GREATER⟩)]
    LogicalOperator.AND

/-- C5: query-tree serialization is recursive and order-preserving: a
group serializes to a `group` dict whose `nodes` list is the
serializations of its children in input order, a node serializes to a
`terminal` dict, and the concrete two-level example (an OR group of two
terminal nodes, ANDed with a third terminal node) serializes to exactly
the expected nested structure. -/
theorem C5_query_group_serialization :
    (∀ (queries : List Query) (logical_operator : LogicalOperator),
      Query.to_dict (.group queries logical_operator) =
        .obj [("type", .str "group"),
              ("logical_operator", .str logical_operator.value),
              ("nodes", .arr (queries.map Query.to_dict))])
  ∧ (∀ (search_service : SearchService) (search_operator : SearchOperator),
      Query.to_dict (.node search_service search_operator) =
        .obj [("type", .str "terminal"),
              ("service", .str search_service.value),
              ("parameters", search_operator.to_dict)])
  ∧ Query.to_dict example_and_group =
      .obj [("type", .str "group"),
            ("logical_operator", .str "and"),
            ("nodes", .arr
              [.obj [("type", .str "group"),
                     ("logical_operator", .str "or"),
                     ("nodes", .arr
                       [.obj [("type", .str "terminal"),
                              ("service", .str "text"),
                              ("parameters", .obj
                                [("attribute",
                                  .str "rcsb_entity_source_organism.taxonomy_lineage.name"),
                                 ("operator", .str "exact_match"),
                                 ("value", .str "Mus musculus")])],
                        .obj [("type", .str "terminal"),
                              ("service", .str "text"),
                              ("parameters", .obj
                                [("attribute",
                                  .str "rcsb_entity_source_organism.taxonomy_lineage.name"),
                                 ("operator", .str "exact_match"),
                                 ("value", .str "Homo sapiens")])]])],
               .obj [("type", .str "terminal"),
                     ("service", .str "text"),
                     ("parameters", .obj
                       [("operator", .str "greater"),
                        ("attribute", .str "rcsb_accession_info.initial_release_date"),
                        ("value", .str "2019-01-01T00:00:00Z")])]])] := by
  refine ⟨?_, ?_, rfl⟩
  · intro queries logical_operator
    rw [Query.to_dict, queriesToDicts_eq_map]
  · intro search_service search_operator
    rfl

/-- C6: a NOT_EQUAL comparison serializes as equality plus negation —
`operator` is the string `equals`, `negation` is true — never as a
literal `not_equal` operator string, while every other comparison kind
serializes to its own operator string with no `negation` key at all. -/
theorem C6_not_equal_serializes_as_negated_equals :
    (∀ (a : String) (v : Json),
      ComparisonOperator.to_dict ⟨a, v, ComparisonType.NOT_EQUAL⟩ =
        .obj [("operator", .str "equals"), ("negation", .bool true),
              ("attribute", .str a), ("value", v)])
  ∧ (∀ (a : String) (v : Json) (k : ComparisonType),
      k ≠ ComparisonType.NOT_EQUAL →
      ComparisonOperator.to_dict ⟨a, v, k⟩ =
        .obj [("operator", .str k.value), ("attribute", .str a), ("value", v)]
      ∧ (ComparisonOperator.to_dict ⟨a, v, k⟩).lookup "negation" = none
      ∧ "negation" ∉ (ComparisonOperator.to_dict ⟨a, v, k⟩).keys)
  ∧ (∀ (a : String) (v : Json) (k : ComparisonType),
      (ComparisonOperator.to_dict ⟨a, v, k⟩).lookup "operator" ≠
        some (.str "not_equal")) := by
  refine ⟨?_, ?_, ?_⟩
  · intro a v
    simp [ComparisonOperator.to_dict]
  · intro a v k hk
    refine ⟨?_, ?_, ?_⟩ <;>
      simp [ComparisonOperator.to_dict, hk, Json.lookup, lookupKey, Json.keys]
  · intro a v k
    cases k <;>
      simp [ComparisonOperator.to_dict, ComparisonType.value, Json.lookup, lookupKey]

/-- Witness for C6: the non-NOT_EQUAL characterization applied to a
GREATER comparison. -/
theorem C6_not_equal_serializes_as_negated_equals_witness :
    ComparisonOperator.to_dict
        ⟨"rcsb_entry_info.resolution_combined", .num 4, ComparisonType.GREATER⟩ =
      .obj [("operator", .str "greater"),
            ("attribute", .str "rcsb_entry_info.resolution_combined"),
            ("value", .num 4)]
    ∧ (ComparisonOperator.to_dict
        ⟨"rcsb_entry_info.resolution_combined", .num 4,
          ComparisonType.GREATER⟩).lookup "negation" = none
    ∧ "negation" ∉ (ComparisonOperator.to_dict
        ⟨"rcsb_entry_info.resolution_combined", .num 4,
          ComparisonType.GREATER⟩).keys :=
  C6_not_equal_serializes_as_negated_equals.2.1
    "rcsb_entry_info.resolution_combined" (.num 4) ComparisonType.GREATER
    (by decide)

/-- A concrete range operator with both inclusion flags set. -/
def c7_range_op : RangeOperator :=
  ⟨"rcsb_accession_info.initial_release_date",
   .str "2019-01-01T00:00:00Z", .str "2019-06-30T00:00:00Z", true, true, false⟩

/-- C7 counterexample: the inclusion flags do NOT remain in the
serialized output — `RangeOperator._to_dict` emits no `include_lower` or
`include_upper` key at all, so the serialized dict does not carry the
flag values it was given. -/
theorem C7_counterexample_inclusion_flags_not_serialized :
    (RangeOperator.to_dict c7_range_op).lookup "include_lower" = none
  ∧ (RangeOperator.to_dict c7_range_op).lookup "include_upper" = none
  ∧ c7_range_op.include_lower = true
  ∧ (RangeOperator.to_dict c7_range_op).lookup "include_lower" ≠
      some (.bool c7_range_op.include_lower) := by
  refine ⟨rfl, rfl, rfl, ?_⟩
  intro h
  exact Option.noConfusion h

/-- C7 amended: flipping `negation` changes only the `negation` boolean
in the serialized dict (every other key maps to the same value, and the
whole output is independent of the inclusion flags); the `include_lower`
and `include_upper` fields themselves are never emitted in the serialized
output. -/
theorem C7_negation_changes_only_negation_key :
    (∀ (a : String) (f t : Json) (il iu n : Bool),
      RangeOperator.to_dict ⟨a, f, t, il, iu, n⟩ =
        .obj [("operator", .str "range"), ("attribute", .str a),
              ("negation", .bool n),
              ("value", .obj [("from", f), ("to", t)])])
  ∧ (∀ (a : String) (f t : Json) (il iu il' iu' n : Bool),
      RangeOperator.to_dict ⟨a, f, t, il, iu, n⟩ =
        RangeOperator.to_dict ⟨a, f, t, il', iu', n⟩)
  ∧ (∀ (a : String) (f t : Json) (il iu : Bool) (key : String),
      key ≠ "negation" →
      (RangeOperator.to_dict ⟨a, f, t, il, iu, true⟩).lookup key =
        (RangeOperator.to_dict ⟨a, f, t, il, iu, false⟩).lookup key)
  ∧ (∀ (a : String) (f t : Json) (il iu n : Bool),
      (RangeOperator.to_dict ⟨a, f, t, il, iu, n⟩).lookup "include_lower" = none
      ∧ (RangeOperator.to_dict ⟨a, f, t, il, iu, n⟩).lookup "include_upper" = none) := by
  refine ⟨fun a f t il iu n => rfl, fun a f t il iu il' iu' n => rfl, ?_, ?_⟩
  · intro a f t il iu key hkey
    have hne : ¬("negation" = key) := fun hc => hkey hc.symm
    simp [RangeOperator.to_dict, Json.lookup, lookupKey, hne]
  · intro a f t il iu n
    constructor <;> simp [RangeOperator.to_dict, Json.lookup, lookupKey]

/-- Witness for C7: the key-preservation part applied to the `operator`
key of a concrete range operator. -/
theorem C7_negation_changes_only_negation_key_witness :
    (RangeOperator.to_dict ⟨"cell.volume", .num 100, .num 200, true, true, true⟩).lookup
        "operator" =
      (RangeOperator.to_dict ⟨"cell.volume", .num 100, .num 200, true, true, false⟩).lookup
        "operator" :=
  C7_negation_changes_only_negation_key.2.2.1 "cell.volume" (.num 100) (.num 200)
    true true "operator" (by decide)

/-- A response body of the documented shape: a `result_set` list of hits,
each an object with `identifier` and `score` keys. -/
def mkResultSetBody (hits : List (String × Rat)) : Json :=
  .obj [("result_set", .arr (hits.map fun h =>
    .obj [("identifier", .str h.1), ("score", .num h.2)]))]

lemma collectScoredResults_canonical (hits : List (String × Rat)) :
    collectScoredResults (hits.map fun h =>
        Json.obj [("identifier", .str h.1), ("score", .num h.2)]) =
      some (hits.map fun h => ⟨.str h.1, .num h.2⟩) := by
  induction hits with
  | nil => rfl
  | cons h t ih =>
    simp [collectScoredResults, Json.lookup, lookupKey, ih]

lemma collectIdentifiers_canonical (hits : List (String × Rat)) :
    collectIdentifiers (hits.map fun h =>
        Json.obj [("identifier", .str h.1), ("score", .num h.2)]) =
      some (hits.map fun h => .str h.1) := by
  induction hits with
  | nil => rfl
  | cons h t ih =>
    simp [collectIdentifiers, Json.lookup, lookupKey, ih]

/-- C4: `perform_search_with_graph` selects its result shape by flag
precedence — with `return_raw_json_dict` true the full decoded body is
returned unprocessed (whatever the scores flag says); otherwise with
`return_with_scores` true the `result_set` hits become
`ScoredResult(identifier, score)` pairs in server order; otherwise the
bare identifiers are returned in the same order. -/
theorem C4_result_shape_flag_precedence :
    (∀ (return_with_scores : Bool) (body : Json),
      perform_search_with_graph_result return_with_scores true body =
        some (.rawJson body))
  ∧ (∀ hits : List (String × Rat),
      perform_search_with_graph_result true false (mkResultSetBody hits) =
        some (.scored (hits.map fun h => ⟨.str h.1, .num h.2⟩)))
  ∧ (∀ hits : List (String × Rat),
      perform_search_with_graph_result false false (mkResultSetBody hits) =
        some (.identifiers (hits.map fun h => .str h.1))) := by
  refine ⟨?_, ?_, ?_⟩
  · intro scores body
    simp [perform_search_with_graph_result]
  · intro hits
    simp [perform_search_with_graph_result, mkResultSetBody, Json.lookup,
      lookupKey, collectScoredResults_canonical]
  · intro hits
    simp [perform_search_with_graph_result, mkResultSetBody, Json.lookup,
      lookupKey, collectIdentifiers_canonical]

/-- A freshly-constructed fetcher for the entry 4HHB, before any data has
been fetched. -/
def c8_fetcher : DataFetcher :=
  { id := ["4HHB"], data_type := DataType.ENTRY }

/-- A GraphQL response that carries both an `errors` list and a `data`
payload. -/
def c8_error_response : Json :=
  .obj [("data", .obj [("entries", .arr [.obj [("exptl", .obj
          [("method", .str "X-RAY DIFFRACTION")])]])]),
        ("errors", .arr [.obj [("message", .str "Field is missing")]])]

/-- C8 counterexample: when the response contains an `errors` key,
`fetch_data` returns early without storing the response — the fetcher
still holds the initial empty response (not the raw response), and
`return_data_as_df_dict` yields `None`, so the response data is NOT
available to the caller. -/
theorem C8_counterexample_error_response_discarded :
    (c8_fetcher.fetch_data c8_error_response).response ≠ c8_error_response
  ∧ (c8_fetcher.fetch_data c8_error_response).response = .obj []
  ∧ (c8_fetcher.fetch_data c8_error_response).return_data_as_df_dict = none := by
  refine ⟨?_, rfl, rfl⟩
  intro h
  have h2 : Json.obj ([] : List (String × Json)) = c8_error_response :=
    Eq.trans
      (rfl : Json.obj [] = (c8_fetcher.fetch_data c8_error_response).response) h
  exact List.noConfusion (Json.obj.inj (h2.trans rfl))

/-- C8 amended: when the GraphQL response contains an `errors` key the
fetcher reports the errors and does not raise, but it discards the
response: the fetcher state is returned unchanged, so a fetcher that had
no previous response still answers `None` from `return_data_as_df_dict`;
only an error-free response is stored. -/
theorem C8_errors_reported_but_response_discarded :
    (∀ (f : DataFetcher) (resp : Json), resp.hasKey "errors" →
      f.fetch_data resp = f)
  ∧ (∀ (f : DataFetcher) (resp : Json), resp.hasKey "errors" →
      f.response = .obj [] →
      (f.fetch_data resp).return_data_as_df_dict = none)
  ∧ (∀ (f : DataFetcher) (resp : Json), ¬resp.hasKey "errors" →
      (f.fetch_data resp).response = resp) := by
  refine ⟨?_, ?_, ?_⟩
  · intro f resp h
    simp [DataFetcher.fetch_data, h]
  · intro f resp h hresp
    simp [DataFetcher.fetch_data, h, DataFetcher.return_data_as_df_dict, hresp]
  · intro f resp h
    simp [DataFetcher.fetch_data, h]

/-- Witness for C8: the discard behaviour applied to the concrete fetcher
and error-carrying response. -/
theorem C8_errors_reported_but_response_discarded_witness :
    (c8_fetcher.fetch_data c8_error_response).return_data_as_df_dict = none :=
  C8_errors_reported_but_response_discarded.2.1 c8_fetcher c8_error_response
    (by rfl) (by rfl)

lemma parseFastaChunks_spec :
    ∀ (chunks : List String) (records : List FastaSequence),
      parseFastaChunks chunks = some records →
      records.length = chunks.length ∧
      ∀ i : Nat, (chunks.get? i).bind parseFastaChunk = records.get? i := by
  intro chunks
  induction chunks with
  | nil =>
    intro records h
    simp [parseFastaChunks] at h
    subst h
    simp
  | cons c cs ih =>
    intro records h
    simp [parseFastaChunks, Option.bind_eq_some] at h
    obtain ⟨r, hr, tail, htail, hrec⟩ := h
    subst hrec
    obtain ⟨hlen, hidx⟩ := ih tail htail
    refine ⟨by simp [hlen], ?_⟩
    intro i
    cases i with
    | zero => simp [hr]
    | succ n => simpa using hidx n

/-- The three-header FASTA example from the spec. -/
def fasta_example_text : String :=
  ">6TML_1|Chains Q7,Q8,Q9|ATPTG11|Toxoplasma gondii\nMVRNQRYPASP\nVQEIFLPEPVP\n>6TML_2|Chain i9|ATPTG7|Toxoplasma gondii\nMPSSSSEDAQG\n>6TML_32|Chains H1,H2,H3,H4|subunit c|Toxoplasma gondii\nMFFSRLSLSAL\nKAAPAREAL"

/-- The records the spec expects for `fasta_example_text`. -/
def fasta_example_records : List FastaSequence :=
  [⟨"6TML_1", ["Q7", "Q8", "Q9"], "MVRNQRYPASPVQEIFLPEPVP",
    "6TML_1|Chains Q7,Q8,Q9|ATPTG11|Toxoplasma gondii"⟩,
   ⟨"6TML_2", ["i9"], "MPSSSSEDAQG",
    "6TML_2|Chain i9|ATPTG7|Toxoplasma gondii"⟩,
   ⟨"6TML_32", ["H1", "H2", "H3", "H4"], "MFFSRLSLSALKAAPAREAL",
    "6TML_32|Chains H1,H2,H3,H4|subunit c|Toxoplasma gondii"⟩]

/-- C9: FASTA parsing produces one record per `>`-delimited block, in
file order; each record comes from its block by taking the pipe-delimited
header field 0 as entity id, header field 1 with the leading Chain or
Chains word stripped and split on commas as the chains, and the
concatenation of the remaining lines (no separator) as the sequence.  The
three-header example yields exactly the three expected records. -/
theorem C9_fasta_parsing_contract :
    (∀ (raw : String) (records : List FastaSequence),
      parse_fasta_text_to_list raw = some records →
      records.length = ((pySplit '>' (pyStripStr raw)).drop 1).length ∧
      ∀ i : Nat,
        (((pySplit '>' (pyStripStr raw)).drop 1).get? i).bind parseFastaChunk =
          records.get? i)
  ∧ (∀ (chunk fasta_header seg0 seg1 : String)
        (body_lines rest_segs : List String),
      pySplit '\n' chunk = fasta_header :: body_lines →
      pySplit '|' fasta_header = seg0 :: seg1 :: rest_segs →
      parseFastaChunk chunk =
        some ⟨seg0, pySplit ',' (String.mk (removeChainWord seg1.data)),
              pyJoin body_lines, fasta_header⟩)
  ∧ parse_fasta_text_to_list fasta_example_text = some fasta_example_records := by
  refine ⟨?_, ?_, by decide⟩
  · intro raw records h
    exact parseFastaChunks_spec _ _ h
  · intro chunk fasta_header seg0 seg1 body_lines rest_segs h1 h2
    simp [parseFastaChunk, h1, h2]

/-- Witness for C9: the per-chunk field derivation applied to a concrete
single-chain block. -/
theorem C9_fasta_parsing_contract_witness :
    parseFastaChunk "6TML_2|Chain i9|ATPTG7|Toxoplasma gondii\nMPSSSSEDAQG" =
      some ⟨"6TML_2",
            pySplit ',' (String.mk (removeChainWord "Chain i9".data)),
            pyJoin ["MPSSSSEDAQG"],
            "6TML_2|Chain i9|ATPTG7|Toxoplasma gondii"⟩ :=
  C9_fasta_parsing_contract.2.1
    "6TML_2|Chain i9|ATPTG7|Toxoplasma gondii\nMPSSSSEDAQG"
    "6TML_2|Chain i9|ATPTG7|Toxoplasma gondii" "6TML_2" "Chain i9"
    ["MPSSSSEDAQG"] ["ATPTG7", "Toxoplasma gondii"] (by decide) (by decide)

/-- C10: when exactly one of `result_start_index` and `num_results` is
None, `_to_dict` emits no `pager` key at all (the half-specified
pagination is silently dropped, without raising), while the sort clause
is still emitted whenever both `sort_by` and `desc` are non-None, as they
are by default. -/
theorem C10_half_pagination_emits_no_pager :
    (∀ (rsi nr : Option Int) (sb : Option String) (d : Option Bool),
      ((rsi = none ∧ nr ≠ none) ∨ (rsi ≠ none ∧ nr = none)) →
      (RequestOptions.mk rsi nr sb d).to_dict.lookup "pager" = none
      ∧ "pager" ∉ (RequestOptions.mk rsi nr sb d).to_dict.keys
      ∧ (∀ (sbv : String) (dv : Bool), sb = some sbv → d = some dv →
          (RequestOptions.mk rsi nr sb d).to_dict =
            .obj [("sort", .arr [.obj [("sort_by", .str sbv),
              ("direction", .str (if dv then "desc" else "asc"))]])]))
  ∧ (RequestOptions.mk (some 42) none (some "score") (some true)).to_dict =
      .obj [("sort", .arr [.obj [("sort_by", .str "score"),
        ("direction", .str "desc")]])]
  ∧ (RequestOptions.mk none (some 8675309) (some "score") (some true)).to_dict =
      .obj [("sort", .arr [.obj [("sort_by", .str "score"),
        ("direction", .str "desc")]])] := by
  refine ⟨?_, rfl, rfl⟩
  intro rsi nr sb d hhalf
  refine ⟨?_, ?_, ?_⟩
  · rcases hhalf with ⟨h1, _⟩ | ⟨_, h2⟩
    · subst h1
      cases sb <;> cases d <;>
        simp [RequestOptions.to_dict, Json.lookup, lookupKey]
    · subst h2
      cases rsi <;> cases sb <;> cases d <;>
        simp [RequestOptions.to_dict, Json.lookup, lookupKey]
  · rcases hhalf with ⟨h1, _⟩ | ⟨_, h2⟩
    · subst h1
      cases sb <;> cases d <;>
        simp [RequestOptions.to_dict, Json.keys]
    · subst h2
      cases rsi <;> cases sb <;> cases d <;>
        simp [RequestOptions.to_dict, Json.keys]
  · intro sbv dv hsb hd
    subst hsb
    subst hd
    rcases hhalf with ⟨h1, _⟩ | ⟨_, h2⟩
    · subst h1
      simp [RequestOptions.to_dict]
    · subst h2
      cases rsi <;> simp [RequestOptions.to_dict]

/-- Witness for C10: a request with only a start index set emits no pager
but keeps the default score-descending sort. -/
theorem C10_half_pagination_emits_no_pager_witness :
    (RequestOptions.mk (some 42) none (some "score") (some true)).to_dict.lookup
        "pager" = none
    ∧ "pager" ∉ (RequestOptions.mk (some 42) none (some "score")
        (some true)).to_dict.keys
    ∧ (∀ (sbv : String) (dv : Bool),
        (some "score" : Option String) = some sbv →
        (some true : Option Bool) = some dv →
        (RequestOptions.mk (some 42) none (some "score") (some true)).to_dict =
          .obj [("sort", .arr [.obj [("sort_by", .str sbv),
            ("direction", .str (if dv then "desc" else "asc"))]])]) :=
  C10_half_pagination_emits_no_pager.1 (some 42) none (some "score") (some true)
    (Or.inr ⟨by decide, rfl⟩)
